import Mathlib

/-!
# The staticcheck analyzer registry

A verification development for `honnef.co/go/tools/staticcheck/analysis.go`:
the function `newFlagSet` and the package-level table `Analyzers`.

The Go map literal is embedded as an association list in source order (Go
rejects a map literal with two equal constant keys, so the list denotes the
map).  Everything the file refers to but does not define is gathered in
`Extern` and taken as a parameter.
-/

namespace staticcheck

/-- Declarations that analysis.go uses and that live in other files: the table
`Docs` of package staticcheck with the `String` method of its entries, and the
`flag.Value` built by `lintutil.NewVersionFlag()` with its `String` method. -/
structure Extern where
  /-- Type of the entries of `Docs` (`*lint.Documentation`). -/
  Documentation : Type
  /-- Lookup `Docs[k]`. -/
  Docs : String → Documentation
  /-- Method `(*lint.Documentation).String`. -/
  docString : Documentation → String
  /-- Interface type `flag.Value`. -/
  Value : Type
  /-- Result of `lintutil.NewVersionFlag()`. -/
  NewVersionFlag : Value
  /-- Method `flag.Value.String`. -/
  valueString : Value → String

/-- Constants of `flag.ErrorHandling`. -/
inductive ErrorHandling
  | ContinueOnError
  | ExitOnError
  | PanicOnError
  deriving DecidableEq, Repr

/-- Record `flag.Flag`: one defined option. -/
structure Flag (E : Extern) where
  Name : String
  Usage : String
  Value : E.Value
  DefValue : String

/-- Record `flag.FlagSet`; the maps `formal` and `actual` are association lists.
The function field `Usage` and the writer `output` are left out. -/
structure FlagSet (E : Extern) where
  name : String
  parsed : Bool
  actual : List (String × Flag E)
  formal : List (String × Flag E)
  args : List String
  errorHandling : ErrorHandling

/-- Constructor `flag.NewFlagSet(name, errorHandling)`: a set with no option defined. -/
def NewFlagSet (E : Extern) (name : String) (errorHandling : ErrorHandling) : FlagSet E :=
  { name := name, parsed := false, actual := [], formal := [], args := [],
    errorHandling := errorHandling }

/-- Method `(*flag.FlagSet).Var(value, name, usage)`: defines the option `name`.
It panics, which is `none` here, when the name begins with `-` or contains `=`
(a check of recent Go releases) and when the name is already defined. -/
def FlagSet.Var {E : Extern} (f : FlagSet E) (value : E.Value) (name usage : String) :
    Option (FlagSet E) :=
  if name.data.head? == some '-' || name.data.contains '=' then none
  else
    let flag : Flag E :=
      { Name := name, Usage := usage, Value := value, DefValue := E.valueString value }
    match f.formal.lookup name with
    | some _ => none
    | none => some { f with formal := f.formal ++ [(name, flag)] }

/-- Go function `newFlagSet` (analysis.go, lines 14-18).  The call of `Var` is on
a set that defines no option yet, so it does not panic: `get rfl` takes its
result. -/
def newFlagSet (E : Extern) : FlagSet E :=
  let fs := NewFlagSet E "" ErrorHandling.PanicOnError
  (fs.Var E.NewVersionFlag "go" "Target Go version").get rfl

/-- A value of type `*analysis.Analyzer` as the table can name it: a
package-level variable of an imported package (`buildssa.Analyzer`), a
package-level variable of package staticcheck (`valueRangesAnalyzer`), or the
analyzer that the composite literal under a key of `Analyzers` allocates.  The
literals are allocated while the table is built, so no variable read in the
table denotes one of them. -/
inductive AnalyzerRef
  | sel (pkg name : String)
  | ident (name : String)
  | entry (key : String)
  deriving DecidableEq, Repr

/-- Variable `buildssa.Analyzer`. -/
def buildssa.Analyzer : AnalyzerRef := .sel "buildssa" "Analyzer"

/-- Variable `inspect.Analyzer`. -/
def inspect.Analyzer : AnalyzerRef := .sel "inspect" "Analyzer"

/-- Variable `facts.Deprecated`. -/
def facts.Deprecated : AnalyzerRef := .sel "facts" "Deprecated"

/-- Variable `facts.Generated`. -/
def facts.Generated : AnalyzerRef := .sel "facts" "Generated"

/-- Variable `facts.TokenFile`. -/
def facts.TokenFile : AnalyzerRef := .sel "facts" "TokenFile"

/-- Variable `facts.Purity`. -/
def facts.Purity : AnalyzerRef := .sel "facts" "Purity"

/-- Variable `valueRangesAnalyzer` of package staticcheck. -/
def valueRangesAnalyzer : AnalyzerRef := .ident "valueRangesAnalyzer"

/-- The expression of a `Run` field: `callChecker(rules)` for a rule table
`rules`, or a function of the package named directly. -/
inductive RunFunc
  | callChecker (rules : String)
  | check (fn : String)
  deriving DecidableEq, Repr

/-- The fields of `analysis.Analyzer` that the table sets. -/
structure Analyzer (E : Extern) where
  Name : String
  Run : RunFunc
  Doc : String
  Requires : List AnalyzerRef
  Flags : FlagSet E

/-- Table `Analyzers` (analysis.go, lines 20-525), entries in source order. -/
def Analyzers (E : Extern) : List (String × Analyzer E) := [
  ("SA1000", ({
    Name     := "SA1000",
    Run      := .callChecker "checkRegexpRules",
    Doc      := E.docString (E.Docs "SA1000"),
    Requires := [buildssa.Analyzer, valueRangesAnalyzer],
    Flags    := newFlagSet E } : Analyzer E)),
  ("SA1001", ({
    Name     := "SA1001",
    Run      := .check "CheckTemplate",
    Doc      := E.docString (E.Docs "SA1001"),
    Requires := [inspect.Analyzer],
    Flags    := newFlagSet E } : Analyzer E)),
  ("SA1002", ({
    Name     := "SA1002",
    Run      := .callChecker "checkTimeParseRules",
    Doc      := E.docString (E.Docs "SA1002"),
    Requires := [buildssa.Analyzer, valueRangesAnalyzer],
    Flags    := newFlagSet E } : Analyzer E)),
  ("SA1003", ({
    Name     := "SA1003",
    Run      := .callChecker "checkEncodingBinaryRules",
    Doc      := E.docString (E.Docs "SA1003"),
    Requires := [buildssa.Analyzer, valueRangesAnalyzer],
    Flags    := newFlagSet E } : Analyzer E)),
  ("SA1004", ({
    Name     := "SA1004",
    Run      := .check "CheckTimeSleepConstant",
    Doc      := E.docString (E.Docs "SA1004"),
    Requires := [inspect.Analyzer],
    Flags    := newFlagSet E } : Analyzer E)),
  ("SA1005", ({
    Name     := "SA1005",
    Run      := .check "CheckExec",
    Doc      := E.docString (E.Docs "SA1005"),
    Requires := [inspect.Analyzer],
    Flags    := newFlagSet E } : Analyzer E)),
  ("SA1006", ({
    Name     := "SA1006",
    Run      := .check "CheckUnsafePrintf",
    Doc      := E.docString (E.Docs "SA1006"),
    Requires := [inspect.Analyzer],
    Flags    := newFlagSet E } : Analyzer E)),
  ("SA1007", ({
    Name     := "SA1007",
    Run      := .callChecker "checkURLsRules",
    Doc      := E.docString (E.Docs "SA1007"),
    Requires := [buildssa.Analyzer, valueRangesAnalyzer],
    Flags    := newFlagSet E } : Analyzer E)),
  ("SA1008", ({
    Name     := "SA1008",
    Run      := .check "CheckCanonicalHeaderKey",
    Doc      := E.docString (E.Docs "SA1008"),
    Requires := [inspect.Analyzer],
    Flags    := newFlagSet E } : Analyzer E)),
  ("SA1010", ({
    Name     := "SA1010",
    Run      := .callChecker "checkRegexpFindAllRules",
    Doc      := E.docString (E.Docs "SA1010"),
    Requires := [buildssa.Analyzer, valueRangesAnalyzer],
    Flags    := newFlagSet E } : Analyzer E)),
  ("SA1011", ({
    Name     := "SA1011",
    Run      := .callChecker "checkUTF8CutsetRules",
    Doc      := E.docString (E.Docs "SA1011"),
    Requires := [buildssa.Analyzer, valueRangesAnalyzer],
    Flags    := newFlagSet E } : Analyzer E)),
  ("SA1012", ({
    Name     := "SA1012",
    Run      := .check "CheckNilContext",
    Doc      := E.docString (E.Docs "SA1012"),
    Requires := [inspect.Analyzer],
    Flags    := newFlagSet E } : Analyzer E)),
  ("SA1013", ({
    Name     := "SA1013",
    Run      := .check "CheckSeeker",
    Doc      := E.docString (E.Docs "SA1013"),
    Requires := [inspect.Analyzer],
    Flags    := newFlagSet E } : Analyzer E)),
  ("SA1014", ({
    Name     := "SA1014",
    Run      := .callChecker "checkUnmarshalPointerRules",
    Doc      := E.docString (E.Docs "SA1014"),
    Requires := [buildssa.Analyzer, valueRangesAnalyzer],
    Flags    := newFlagSet E } : Analyzer E)),
  ("SA1015", ({
    Name     := "SA1015",
    Run      := .check "CheckLeakyTimeTick",
    Doc      := E.docString (E.Docs "SA1015"),
    Requires := [buildssa.Analyzer],
    Flags    := newFlagSet E } : Analyzer E)),
  ("SA1016", ({
    Name     := "SA1016",
    Run      := .check "CheckUntrappableSignal",
    Doc      := E.docString (E.Docs "SA1016"),
    Requires := [inspect.Analyzer],
    Flags    := newFlagSet E } : Analyzer E)),
  ("SA1017", ({
    Name     := "SA1017",
    Run      := .callChecker "checkUnbufferedSignalChanRules",
    Doc      := E.docString (E.Docs "SA1017"),
    Requires := [buildssa.Analyzer, valueRangesAnalyzer],
    Flags    := newFlagSet E } : Analyzer E)),
  ("SA1018", ({
    Name     := "SA1018",
    Run      := .callChecker "checkStringsReplaceZeroRules",
    Doc      := E.docString (E.Docs "SA1018"),
    Requires := [buildssa.Analyzer, valueRangesAnalyzer],
    Flags    := newFlagSet E } : Analyzer E)),
  ("SA1019", ({
    Name     := "SA1019",
    Run      := .check "CheckDeprecated",
    Doc      := E.docString (E.Docs "SA1019"),
    Requires := [inspect.Analyzer, facts.Deprecated],
    Flags    := newFlagSet E } : Analyzer E)),
  ("SA1020", ({
    Name     := "SA1020",
    Run      := .callChecker "checkListenAddressRules",
    Doc      := E.docString (E.Docs "SA1020"),
    Requires := [buildssa.Analyzer, valueRangesAnalyzer],
    Flags    := newFlagSet E } : Analyzer E)),
  ("SA1021", ({
    Name     := "SA1021",
    Run      := .callChecker "checkBytesEqualIPRules",
    Doc      := E.docString (E.Docs "SA1021"),
    Requires := [buildssa.Analyzer, valueRangesAnalyzer],
    Flags    := newFlagSet E } : Analyzer E)),
  ("SA1023", ({
    Name     := "SA1023",
    Run      := .check "CheckWriterBufferModified",
    Doc      := E.docString (E.Docs "SA1023"),
    Requires := [buildssa.Analyzer],
    Flags    := newFlagSet E } : Analyzer E)),
  ("SA1024", ({
    Name     := "SA1024",
    Run      := .callChecker "checkUniqueCutsetRules",
    Doc      := E.docString (E.Docs "SA1024"),
    Requires := [buildssa.Analyzer, valueRangesAnalyzer],
    Flags    := newFlagSet E } : Analyzer E)),
  ("SA1025", ({
    Name     := "SA1025",
    Run      := .check "CheckTimerResetReturnValue",
    Doc      := E.docString (E.Docs "SA1025"),
    Requires := [buildssa.Analyzer],
    Flags    := newFlagSet E } : Analyzer E)),
  ("SA1026", ({
    Name     := "SA1026",
    Run      := .callChecker "checkUnsupportedMarshal",
    Doc      := E.docString (E.Docs "SA1026"),
    Requires := [buildssa.Analyzer, valueRangesAnalyzer],
    Flags    := newFlagSet E } : Analyzer E)),
  ("SA1027", ({
    Name     := "SA1027",
    Run      := .callChecker "checkAtomicAlignment",
    Doc      := E.docString (E.Docs "SA1027"),
    Requires := [buildssa.Analyzer, valueRangesAnalyzer],
    Flags    := newFlagSet E } : Analyzer E)),
  ("SA2000", ({
    Name     := "SA2000",
    Run      := .check "CheckWaitgroupAdd",
    Doc      := E.docString (E.Docs "SA2000"),
    Requires := [inspect.Analyzer],
    Flags    := newFlagSet E } : Analyzer E)),
  ("SA2001", ({
    Name     := "SA2001",
    Run      := .check "CheckEmptyCriticalSection",
    Doc      := E.docString (E.Docs "SA2001"),
    Requires := [inspect.Analyzer],
    Flags    := newFlagSet E } : Analyzer E)),
  ("SA2002", ({
    Name     := "SA2002",
    Run      := .check "CheckConcurrentTesting",
    Doc      := E.docString (E.Docs "SA2002"),
    Requires := [buildssa.Analyzer],
    Flags    := newFlagSet E } : Analyzer E)),
  ("SA2003", ({
    Name     := "SA2003",
    Run      := .check "CheckDeferLock",
    Doc      := E.docString (E.Docs "SA2003"),
    Requires := [buildssa.Analyzer],
    Flags    := newFlagSet E } : Analyzer E)),
  ("SA3000", ({
    Name     := "SA3000",
    Run      := .check "CheckTestMainExit",
    Doc      := E.docString (E.Docs "SA3000"),
    Requires := [inspect.Analyzer],
    Flags    := newFlagSet E } : Analyzer E)),
  ("SA3001", ({
    Name     := "SA3001",
    Run      := .check "CheckBenchmarkN",
    Doc      := E.docString (E.Docs "SA3001"),
    Requires := [inspect.Analyzer],
    Flags    := newFlagSet E } : Analyzer E)),
  ("SA4000", ({
    Name     := "SA4000",
    Run      := .check "CheckLhsRhsIdentical",
    Doc      := E.docString (E.Docs "SA4000"),
    Requires := [inspect.Analyzer, facts.TokenFile, facts.Generated],
    Flags    := newFlagSet E } : Analyzer E)),
  ("SA4001", ({
    Name     := "SA4001",
    Run      := .check "CheckIneffectiveCopy",
    Doc      := E.docString (E.Docs "SA4001"),
    Requires := [inspect.Analyzer],
    Flags    := newFlagSet E } : Analyzer E)),
  ("SA4002", ({
    Name     := "SA4002",
    Run      := .check "CheckDiffSizeComparison",
    Doc      := E.docString (E.Docs "SA4002"),
    Requires := [buildssa.Analyzer, valueRangesAnalyzer],
    Flags    := newFlagSet E } : Analyzer E)),
  ("SA4003", ({
    Name     := "SA4003",
    Run      := .check "CheckExtremeComparison",
    Doc      := E.docString (E.Docs "SA4003"),
    Requires := [inspect.Analyzer],
    Flags    := newFlagSet E } : Analyzer E)),
  ("SA4004", ({
    Name     := "SA4004",
    Run      := .check "CheckIneffectiveLoop",
    Doc      := E.docString (E.Docs "SA4004"),
    Requires := [inspect.Analyzer],
    Flags    := newFlagSet E } : Analyzer E)),
  ("SA4006", ({
    Name     := "SA4006",
    Run      := .check "CheckUnreadVariableValues",
    Doc      := E.docString (E.Docs "SA4006"),
    Requires := [buildssa.Analyzer, facts.Generated],
    Flags    := newFlagSet E } : Analyzer E)),
  ("SA4008", ({
    Name     := "SA4008",
    Run      := .check "CheckLoopCondition",
    Doc      := E.docString (E.Docs "SA4008"),
    Requires := [buildssa.Analyzer],
    Flags    := newFlagSet E } : Analyzer E)),
  ("SA4009", ({
    Name     := "SA4009",
    Run      := .check "CheckArgOverwritten",
    Doc      := E.docString (E.Docs "SA4009"),
    Requires := [buildssa.Analyzer],
    Flags    := newFlagSet E } : Analyzer E)),
  ("SA4010", ({
    Name     := "SA4010",
    Run      := .check "CheckIneffectiveAppend",
    Doc      := E.docString (E.Docs "SA4010"),
    Requires := [buildssa.Analyzer],
    Flags    := newFlagSet E } : Analyzer E)),
  ("SA4011", ({
    Name     := "SA4011",
    Run      := .check "CheckScopedBreak",
    Doc      := E.docString (E.Docs "SA4011"),
    Requires := [inspect.Analyzer],
    Flags    := newFlagSet E } : Analyzer E)),
  ("SA4012", ({
    Name     := "SA4012",
    Run      := .check "CheckNaNComparison",
    Doc      := E.docString (E.Docs "SA4012"),
    Requires := [buildssa.Analyzer],
    Flags    := newFlagSet E } : Analyzer E)),
  ("SA4013", ({
    Name     := "SA4013",
    Run      := .check "CheckDoubleNegation",
    Doc      := E.docString (E.Docs "SA4013"),
    Requires := [inspect.Analyzer],
    Flags    := newFlagSet E } : Analyzer E)),
  ("SA4014", ({
    Name     := "SA4014",
    Run      := .check "CheckRepeatedIfElse",
    Doc      := E.docString (E.Docs "SA4014"),
    Requires := [inspect.Analyzer],
    Flags    := newFlagSet E } : Analyzer E)),
  ("SA4015", ({
    Name     := "SA4015",
    Run      := .callChecker "checkMathIntRules",
    Doc      := E.docString (E.Docs "SA4015"),
    Requires := [buildssa.Analyzer, valueRangesAnalyzer],
    Flags    := newFlagSet E } : Analyzer E)),
  ("SA4016", ({
    Name     := "SA4016",
    Run      := .check "CheckSillyBitwiseOps",
    Doc      := E.docString (E.Docs "SA4016"),
    Requires := [buildssa.Analyzer, facts.TokenFile],
    Flags    := newFlagSet E } : Analyzer E)),
  ("SA4017", ({
    Name     := "SA4017",
    Run      := .check "CheckPureFunctions",
    Doc      := E.docString (E.Docs "SA4017"),
    Requires := [buildssa.Analyzer, facts.Purity],
    Flags    := newFlagSet E } : Analyzer E)),
  ("SA4018", ({
    Name     := "SA4018",
    Run      := .check "CheckSelfAssignment",
    Doc      := E.docString (E.Docs "SA4018"),
    Requires := [inspect.Analyzer, facts.Generated, facts.TokenFile],
    Flags    := newFlagSet E } : Analyzer E)),
  ("SA4019", ({
    Name     := "SA4019",
    Run      := .check "CheckDuplicateBuildConstraints",
    Doc      := E.docString (E.Docs "SA4019"),
    Requires := [facts.Generated],
    Flags    := newFlagSet E } : Analyzer E)),
  ("SA4020", ({
    Name     := "SA4020",
    Run      := .check "CheckUnreachableTypeCases",
    Doc      := E.docString (E.Docs "SA4020"),
    Requires := [inspect.Analyzer],
    Flags    := newFlagSet E } : Analyzer E)),
  ("SA4021", ({
    Name     := "SA4021",
    Run      := .check "CheckSingleArgAppend",
    Doc      := E.docString (E.Docs "SA4021"),
    Requires := [inspect.Analyzer, facts.Generated, facts.TokenFile],
    Flags    := newFlagSet E } : Analyzer E)),
  ("SA5000", ({
    Name     := "SA5000",
    Run      := .check "CheckNilMaps",
    Doc      := E.docString (E.Docs "SA5000"),
    Requires := [buildssa.Analyzer],
    Flags    := newFlagSet E } : Analyzer E)),
  ("SA5001", ({
    Name     := "SA5001",
    Run      := .check "CheckEarlyDefer",
    Doc      := E.docString (E.Docs "SA5001"),
    Requires := [inspect.Analyzer],
    Flags    := newFlagSet E } : Analyzer E)),
  ("SA5002", ({
    Name     := "SA5002",
    Run      := .check "CheckInfiniteEmptyLoop",
    Doc      := E.docString (E.Docs "SA5002"),
    Requires := [inspect.Analyzer],
    Flags    := newFlagSet E } : Analyzer E)),
  ("SA5003", ({
    Name     := "SA5003",
    Run      := .check "CheckDeferInInfiniteLoop",
    Doc      := E.docString (E.Docs "SA5003"),
    Requires := [inspect.Analyzer],
    Flags    := newFlagSet E } : Analyzer E)),
  ("SA5004", ({
    Name     := "SA5004",
    Run      := .check "CheckLoopEmptyDefault",
    Doc      := E.docString (E.Docs "SA5004"),
    Requires := [inspect.Analyzer],
    Flags    := newFlagSet E } : Analyzer E)),
  ("SA5005", ({
    Name     := "SA5005",
    Run      := .check "CheckCyclicFinalizer",
    Doc      := E.docString (E.Docs "SA5005"),
    Requires := [buildssa.Analyzer],
    Flags    := newFlagSet E } : Analyzer E)),
  ("SA5007", ({
    Name     := "SA5007",
    Run      := .check "CheckInfiniteRecursion",
    Doc      := E.docString (E.Docs "SA5007"),
    Requires := [buildssa.Analyzer],
    Flags    := newFlagSet E } : Analyzer E)),
  ("SA5008", ({
    Name     := "SA5008",
    Run      := .check "CheckStructTags",
    Doc      := E.docString (E.Docs "SA5008"),
    Requires := [inspect.Analyzer],
    Flags    := newFlagSet E } : Analyzer E)),
  ("SA5009", ({
    Name     := "SA5009",
    Run      := .callChecker "checkPrintfRules",
    Doc      := E.docString (E.Docs "SA5009"),
    Requires := [buildssa.Analyzer, valueRangesAnalyzer],
    Flags    := newFlagSet E } : Analyzer E)),
  ("SA6000", ({
    Name     := "SA6000",
    Run      := .callChecker "checkRegexpMatchLoopRules",
    Doc      := E.docString (E.Docs "SA6000"),
    Requires := [buildssa.Analyzer, valueRangesAnalyzer],
    Flags    := newFlagSet E } : Analyzer E)),
  ("SA6001", ({
    Name     := "SA6001",
    Run      := .check "CheckMapBytesKey",
    Doc      := E.docString (E.Docs "SA6001"),
    Requires := [buildssa.Analyzer],
    Flags    := newFlagSet E } : Analyzer E)),
  ("SA6002", ({
    Name     := "SA6002",
    Run      := .callChecker "checkSyncPoolValueRules",
    Doc      := E.docString (E.Docs "SA6002"),
    Requires := [buildssa.Analyzer, valueRangesAnalyzer],
    Flags    := newFlagSet E } : Analyzer E)),
  ("SA6003", ({
    Name     := "SA6003",
    Run      := .check "CheckRangeStringRunes",
    Doc      := E.docString (E.Docs "SA6003"),
    Requires := [buildssa.Analyzer],
    Flags    := newFlagSet E } : Analyzer E)),
  ("SA6005", ({
    Name     := "SA6005",
    Run      := .check "CheckToLowerToUpperComparison",
    Doc      := E.docString (E.Docs "SA6005"),
    Requires := [inspect.Analyzer],
    Flags    := newFlagSet E } : Analyzer E)),
  ("SA9001", ({
    Name     := "SA9001",
    Run      := .check "CheckDubiousDeferInChannelRangeLoop",
    Doc      := E.docString (E.Docs "SA9001"),
    Requires := [inspect.Analyzer],
    Flags    := newFlagSet E } : Analyzer E)),
  ("SA9002", ({
    Name     := "SA9002",
    Run      := .check "CheckNonOctalFileMode",
    Doc      := E.docString (E.Docs "SA9002"),
    Requires := [inspect.Analyzer],
    Flags    := newFlagSet E } : Analyzer E)),
  ("SA9003", ({
    Name     := "SA9003",
    Run      := .check "CheckEmptyBranch",
    Doc      := E.docString (E.Docs "SA9003"),
    Requires := [buildssa.Analyzer, facts.TokenFile, facts.Generated],
    Flags    := newFlagSet E } : Analyzer E)),
  ("SA9004", ({
    Name     := "SA9004",
    Run      := .check "CheckMissingEnumTypesInDeclaration",
    Doc      := E.docString (E.Docs "SA9004"),
    Requires := [inspect.Analyzer],
    Flags    := newFlagSet E } : Analyzer E)),
  ("SA9005", ({
    Name     := "SA9005",
    Run      := .callChecker "checkNoopMarshal",
    Doc      := E.docString (E.Docs "SA9005"),
    Requires := [buildssa.Analyzer, valueRangesAnalyzer, facts.Generated, facts.TokenFile],
    Flags    := newFlagSet E } : Analyzer E))  ]

/-- Whether a `Run` field is built with `callChecker`. -/
def RunFunc.isCallChecker : RunFunc → Bool
  | .callChecker _ => true
  | .check _ => false

/-- The seven analyzers defined outside the table that its `Requires` lists name. -/
def foundational : List AnalyzerRef :=
  [buildssa.Analyzer, inspect.Analyzer, valueRangesAnalyzer, facts.Deprecated,
   facts.Generated, facts.TokenFile, facts.Purity]

/-- Entry `p` of the table depends on entry `q`: the analyzer allocated under the
key of `q` is an element of the `Requires` list of `p`. -/
def dependsOn {E : Extern} (p q : String × Analyzer E) : Prop :=
  AnalyzerRef.entry q.1 ∈ p.2.Requires

/-- The identifier convention: six characters, the letters `SA` and then four
decimal digits. -/
def followsConvention (s : String) : Prop :=
  s.length = 6 ∧ s.data.take 2 = ['S', 'A'] ∧ (s.data.drop 2).length = 4 ∧
    ∀ c ∈ s.data.drop 2, c.isDigit = true

instance followsConvention.decidable : DecidablePred followsConvention :=
  fun s => by unfold followsConvention; infer_instance

/-- A concrete environment on which the table can be evaluated: the
documentation of a key renders as the key itself, and the version flag is the
number 13 rendered as `1.13`. -/
def Extern.sample : Extern :=
  { Documentation := String
    Docs := fun k => k
    docString := fun d => d
    Value := Nat
    NewVersionFlag := 13
    valueString := fun _ => "1.13" }

/-- The entry of `Analyzers Extern.sample` under the key `SA1000`. -/
def sampleSA1000 : Analyzer Extern.sample :=
  { Name := "SA1000"
    Run := .callChecker "checkRegexpRules"
    Doc := "SA1000"
    Requires := [buildssa.Analyzer, valueRangesAnalyzer]
    Flags := newFlagSet Extern.sample }

/-- The fields of an entry that do not depend on the environment. -/
structure Shape where
  key : String
  Name : String
  Run : RunFunc
  Requires : List AnalyzerRef
  deriving DecidableEq, Repr

/-- The `Shape` of an entry of the table. -/
def shape {E : Extern} (p : String × Analyzer E) : Shape :=
  { key := p.1, Name := p.2.Name, Run := p.2.Run, Requires := p.2.Requires }

/-- The shapes of the entries of the table, in source order. -/
def shapes : List Shape := (Analyzers Extern.sample).map shape

/-! ## Helper lemmas -/

/-- The shapes of the table do not depend on the environment. -/
theorem shapes_eq (E : Extern) : (Analyzers E).map shape = shapes := rfl

/-- A property of shapes that holds of every element of `shapes` holds of every
entry of the table, in every environment. -/
theorem forall_shape (E : Extern) (P : Shape → Prop) (h : ∀ s ∈ shapes, P s)
    (k : String) (a : Analyzer E) (hm : (k, a) ∈ Analyzers E) : P (shape (k, a)) := by
  have hs : shape (k, a) ∈ (Analyzers E).map shape := List.mem_map_of_mem _ hm
  rw [shapes_eq] at hs
  exact h _ hs

/-- A successful lookup in an association list returns a pair of the list. -/
theorem mem_of_lookup {β : Type} (l : List (String × β)) (k : String) (v : β)
    (h : l.lookup k = some v) : (k, v) ∈ l := by
  induction l with
  | nil => simp [List.lookup] at h
  | cons p l ih =>
    obtain ⟨k1, v1⟩ := p
    by_cases hk : k = k1
    · subst hk
      simp [List.lookup] at h
      subst h
      exact List.mem_cons_self _ _
    · have hne : (k == k1) = false := by simpa using hk
      simp only [List.lookup, hne] at h
      exact List.mem_cons_of_mem _ (ih h)

/-- The table entries all carry the flag set of `newFlagSet`. -/
theorem flags_eq (E : Extern) (k : String) (a : Analyzer E) (h : (k, a) ∈ Analyzers E) :
    a.Flags = newFlagSet E := by
  simp only [Analyzers, List.mem_cons, List.mem_nil_iff, Prod.mk.injEq, or_false] at h
  repeat (rcases h with ⟨rfl, rfl⟩ | h; exact rfl)
  rcases h with ⟨rfl, rfl⟩
  exact rfl

/-- The table entries all carry their key as name and the documentation of their key. -/
theorem name_doc_eq (E : Extern) (k : String) (a : Analyzer E) (h : (k, a) ∈ Analyzers E) :
    a.Name = k ∧ a.Doc = E.docString (E.Docs k) := by
  simp only [Analyzers, List.mem_cons, List.mem_nil_iff, Prod.mk.injEq, or_false] at h
  repeat (rcases h with ⟨rfl, rfl⟩ | h; exact ⟨rfl, rfl⟩)
  rcases h with ⟨rfl, rfl⟩
  exact ⟨rfl, rfl⟩

/-- The sample entry is the first entry of the table on the sample environment. -/
theorem sampleSA1000_mem : ("SA1000", sampleSA1000) ∈ Analyzers Extern.sample :=
  List.mem_cons_self _ _

/-! ## The claims -/

/-- C1: the descriptor stored under a key `k` of `Analyzers` has `Name` equal to
`k` and `Doc` equal to the rendering of `Docs[k]`; a lookup by identifier returns
such a descriptor. -/
theorem analyzers_entry_self_consistent (E : Extern) (k : String) (a : Analyzer E)
    (h : (k, a) ∈ Analyzers E ∨ (Analyzers E).lookup k = some a) :
    a.Name = k ∧ a.Doc = E.docString (E.Docs k) :=
  name_doc_eq E k a (h.elim id (mem_of_lookup _ k a))

/-- Instance of C1 at the entry `SA1000` of the sample environment. -/
theorem analyzers_entry_self_consistent_witness :
    (("SA1000", sampleSA1000) ∈ Analyzers Extern.sample ∨
        (Analyzers Extern.sample).lookup "SA1000" = some sampleSA1000) ∧
      sampleSA1000.Name = "SA1000" ∧
      sampleSA1000.Doc = Extern.sample.docString (Extern.sample.Docs "SA1000") :=
  ⟨Or.inl sampleSA1000_mem,
    analyzers_entry_self_consistent Extern.sample "SA1000" sampleSA1000 (Or.inl sampleSA1000_mem)⟩

/-- C2: the table has 71 entries, no two of them with the same key and no two of
them with the same `Name`. -/
theorem analyzers_identifiers_unique (E : Extern) :
    (Analyzers E).length = 71 ∧
      ((Analyzers E).map Prod.fst).Nodup ∧
      ((Analyzers E).map (fun p => p.2.Name)).Nodup := by
  have hk : (Analyzers E).map Prod.fst = shapes.map Shape.key := by
    rw [← shapes_eq E, List.map_map]; rfl
  have hn : (Analyzers E).map (fun p => p.2.Name) = shapes.map Shape.Name := by
    rw [← shapes_eq E, List.map_map]; rfl
  refine ⟨rfl, ?_, ?_⟩
  · rw [hk]; decide
  · rw [hn]; decide

/-- C3: every identifier of the table, key and `Name` alike, is six characters
long: the letters `SA` followed by four decimal digits. -/
theorem analyzers_identifier_format (E : Extern) (k : String) (a : Analyzer E)
    (h : (k, a) ∈ Analyzers E) : followsConvention k ∧ followsConvention a.Name :=
  forall_shape E (fun s => followsConvention s.key ∧ followsConvention s.Name)
    (by decide) k a h

/-- Instance of C3 at the entry `SA1000` of the sample environment. -/
theorem analyzers_identifier_format_witness :
    ("SA1000", sampleSA1000) ∈ Analyzers Extern.sample ∧
      followsConvention "SA1000" ∧ followsConvention sampleSA1000.Name :=
  ⟨sampleSA1000_mem,
    analyzers_identifier_format Extern.sample "SA1000" sampleSA1000 sampleSA1000_mem⟩

/-- C4: every entry of the table whose `Run` is built with `callChecker` has both
`buildssa.Analyzer` and `valueRangesAnalyzer` in its `Requires` list. -/
theorem callChecker_requires_value_ranges (E : Extern) (k : String) (a : Analyzer E)
    (h : (k, a) ∈ Analyzers E) (hr : a.Run.isCallChecker = true) :
    buildssa.Analyzer ∈ a.Requires ∧ valueRangesAnalyzer ∈ a.Requires :=
  forall_shape E
    (fun s => s.Run.isCallChecker = true →
      buildssa.Analyzer ∈ s.Requires ∧ valueRangesAnalyzer ∈ s.Requires)
    (by decide) k a h hr

/-- Instance of C4 at the entry `SA1000` of the sample environment. -/
theorem callChecker_requires_value_ranges_witness :
    ("SA1000", sampleSA1000) ∈ Analyzers Extern.sample ∧
      sampleSA1000.Run.isCallChecker = true ∧
      buildssa.Analyzer ∈ sampleSA1000.Requires ∧
      valueRangesAnalyzer ∈ sampleSA1000.Requires :=
  ⟨sampleSA1000_mem, rfl,
    callChecker_requires_value_ranges Extern.sample "SA1000" sampleSA1000 sampleSA1000_mem rfl⟩

/-- C5: every element of every `Requires` list of the table is one of the seven
foundational analyzers, none of which is an entry of the table; hence no entry
depends on an entry, and the dependency relation among the entries has no
cycle. -/
theorem analyzers_dependencies_acyclic (E : Extern) :
    (∀ p ∈ Analyzers E, ∀ r ∈ p.2.Requires, r ∈ foundational) ∧
      (∀ r ∈ foundational, ∀ k : String, r ≠ AnalyzerRef.entry k) ∧
      (∀ p ∈ Analyzers E, ∀ q ∈ Analyzers E, ¬ dependsOn p q) ∧
      (∀ p : String × Analyzer E,
        ¬ Relation.TransGen
            (fun x y => x ∈ Analyzers E ∧ y ∈ Analyzers E ∧ dependsOn x y) p p) := by
  have h1 : ∀ p ∈ Analyzers E, ∀ r ∈ p.2.Requires, r ∈ foundational := fun p hp =>
    forall_shape E (fun s => ∀ r ∈ s.Requires, r ∈ foundational) (by decide) p.1 p.2 hp
  have h2 : ∀ r ∈ foundational, ∀ k : String, r ≠ AnalyzerRef.entry k := by
    intro r hr k hk
    subst hk
    revert hr
    simp [foundational, buildssa.Analyzer, inspect.Analyzer, valueRangesAnalyzer,
      facts.Deprecated, facts.Generated, facts.TokenFile, facts.Purity]
  have h3 : ∀ p ∈ Analyzers E, ∀ q ∈ Analyzers E, ¬ dependsOn p q := by
    intro p hp q _ hd
    exact h2 _ (h1 p hp _ hd) q.1 rfl
  refine ⟨h1, h2, h3, ?_⟩
  intro p hp
  obtain ⟨q, ⟨hx, hy, hd⟩, _⟩ := Relation.TransGen.head'_iff.mp hp
  exact h3 p hx q hy hd

/-- C6: no `Requires` list of the table names the same analyzer twice. -/
theorem analyzers_requires_nodup (E : Extern) (k : String) (a : Analyzer E)
    (h : (k, a) ∈ Analyzers E) : a.Requires.Nodup :=
  forall_shape E (fun s => s.Requires.Nodup) (by decide) k a h

/-- Instance of C6 at the entry `SA1000` of the sample environment. -/
theorem analyzers_requires_nodup_witness :
    ("SA1000", sampleSA1000) ∈ Analyzers Extern.sample ∧ sampleSA1000.Requires.Nodup :=
  ⟨sampleSA1000_mem,
    analyzers_requires_nodup Extern.sample "SA1000" sampleSA1000 sampleSA1000_mem⟩

/-- C7: `newFlagSet` returns the set in which `Var` has defined the single option
`go` with usage `Target Go version`, and every entry of the table carries exactly
that set, which is not empty. -/
theorem analyzers_default_flags (E : Extern) :
    (NewFlagSet E "" ErrorHandling.PanicOnError).Var E.NewVersionFlag "go" "Target Go version"
        = some (newFlagSet E) ∧
      (newFlagSet E).formal =
        [("go", { Name := "go", Usage := "Target Go version", Value := E.NewVersionFlag,
                  DefValue := E.valueString E.NewVersionFlag })] ∧
      (∀ p ∈ Analyzers E, p.2.Flags = newFlagSet E ∧ p.2.Flags.formal ≠ []) := by
  refine ⟨rfl, rfl, ?_⟩
  intro p hp
  rw [flags_eq E p.1 p.2 hp]
  exact ⟨rfl, List.cons_ne_nil _ _⟩

/-- C8: the entry `SA9005` is built with `callChecker` and requires
`facts.Generated` and `facts.TokenFile`; it is the only entry built with
`callChecker` that requires `facts.Generated`, and every other such entry requires
exactly `buildssa.Analyzer` and `valueRangesAnalyzer`, in this order. -/
theorem sa9005_filters_generated (E : Extern) :
    (∃ a, (Analyzers E).lookup "SA9005" = some a ∧ a.Run.isCallChecker = true ∧
        facts.Generated ∈ a.Requires ∧ facts.TokenFile ∈ a.Requires) ∧
      (∀ k a, (k, a) ∈ Analyzers E → a.Run.isCallChecker = true →
        facts.Generated ∈ a.Requires → k = "SA9005") ∧
      (∀ k a, (k, a) ∈ Analyzers E → a.Run.isCallChecker = true → k ≠ "SA9005" →
        a.Requires = [buildssa.Analyzer, valueRangesAnalyzer]) := by
  have hg : facts.Generated ∈
      [buildssa.Analyzer, valueRangesAnalyzer, facts.Generated, facts.TokenFile] := by decide
  have ht : facts.TokenFile ∈
      [buildssa.Analyzer, valueRangesAnalyzer, facts.Generated, facts.TokenFile] := by decide
  refine ⟨⟨_, rfl, rfl, hg, ht⟩, ?_, ?_⟩
  · intro k a h
    exact forall_shape E
      (fun s => s.Run.isCallChecker = true → facts.Generated ∈ s.Requires → s.key = "SA9005")
      (by decide) k a h
  · intro k a h
    exact forall_shape E
      (fun s => s.Run.isCallChecker = true → s.key ≠ "SA9005" →
        s.Requires = [buildssa.Analyzer, valueRangesAnalyzer])
      (by decide) k a h

/-- C9: in every `Requires` list of the table that contains `valueRangesAnalyzer`,
`buildssa.Analyzer` occurs too, at an earlier position; the entries concerned are
those built with `callChecker` and `SA4002`, which is not built with it. -/
theorem value_ranges_after_buildssa (E : Extern) (k : String) (a : Analyzer E)
    (h : (k, a) ∈ Analyzers E) :
    (valueRangesAnalyzer ∈ a.Requires →
        buildssa.Analyzer ∈ a.Requires ∧
          a.Requires.indexOf buildssa.Analyzer < a.Requires.indexOf valueRangesAnalyzer) ∧
      (valueRangesAnalyzer ∈ a.Requires ↔ (a.Run.isCallChecker = true ∨ k = "SA4002")) ∧
      (k = "SA4002" → a.Run.isCallChecker = false) :=
  forall_shape E
    (fun s =>
      (valueRangesAnalyzer ∈ s.Requires →
        buildssa.Analyzer ∈ s.Requires ∧
          s.Requires.indexOf buildssa.Analyzer < s.Requires.indexOf valueRangesAnalyzer) ∧
      (valueRangesAnalyzer ∈ s.Requires ↔ (s.Run.isCallChecker = true ∨ s.key = "SA4002")) ∧
      (s.key = "SA4002" → s.Run.isCallChecker = false))
    (by decide) k a h

/-- Instance of C9 at the entry `SA1000` of the sample environment. -/
theorem value_ranges_after_buildssa_witness :
    ("SA1000", sampleSA1000) ∈ Analyzers Extern.sample ∧
      (valueRangesAnalyzer ∈ sampleSA1000.Requires →
        buildssa.Analyzer ∈ sampleSA1000.Requires ∧
          sampleSA1000.Requires.indexOf buildssa.Analyzer
            < sampleSA1000.Requires.indexOf valueRangesAnalyzer) ∧
      (valueRangesAnalyzer ∈ sampleSA1000.Requires ↔
        (sampleSA1000.Run.isCallChecker = true ∨ "SA1000" = "SA4002")) ∧
      ("SA1000" = "SA4002" → sampleSA1000.Run.isCallChecker = false) :=
  ⟨sampleSA1000_mem,
    value_ranges_after_buildssa Extern.sample "SA1000" sampleSA1000 sampleSA1000_mem⟩

/-- C10: every `Requires` list of the table is non-empty and none contains both
`inspect.Analyzer` and `buildssa.Analyzer`; every entry but `SA4019` requires one
of the two, and `SA4019` requires `facts.Generated` alone. -/
theorem analyzers_syntax_or_ssa (E : Extern) :
    (∀ k a, (k, a) ∈ Analyzers E →
        a.Requires ≠ [] ∧
          ¬ (inspect.Analyzer ∈ a.Requires ∧ buildssa.Analyzer ∈ a.Requires) ∧
          (k ≠ "SA4019" → inspect.Analyzer ∈ a.Requires ∨ buildssa.Analyzer ∈ a.Requires)) ∧
      (∃ a, (Analyzers E).lookup "SA4019" = some a ∧ a.Requires = [facts.Generated]) := by
  refine ⟨?_, ⟨_, rfl, rfl⟩⟩
  intro k a h
  exact forall_shape E
    (fun s => s.Requires ≠ [] ∧
      ¬ (inspect.Analyzer ∈ s.Requires ∧ buildssa.Analyzer ∈ s.Requires) ∧
      (s.key ≠ "SA4019" → inspect.Analyzer ∈ s.Requires ∨ buildssa.Analyzer ∈ s.Requires))
    (by decide) k a h

end staticcheck
